import Mathlib

/-!
Verification of the hackathon WhatsApp relay service.

Strings of the Go source are modelled as `List Char` (`Str`); Go's
`strings.TrimSpace` is modelled on the ASCII whitespace characters,
which is what every input relevant to the claims uses.
-/

namespace Hackathon

abbrev Str := List Char

/-- Convert a Lean string literal into the `List Char` model. -/
def str (s : String) : Str := s.data

/-- ASCII whitespace, as recognized by Go's `unicode.IsSpace` (the
Unicode-only space classes are not used by any input of interest). -/
def goIsSpace (c : Char) : Bool :=
  c = ' ' || c = '\t' || c = '\n' || c = '\x0b' || c = '\x0c' || c = '\r'

/-- Model of Go `strings.TrimSpace`: drop whitespace at both ends. -/
def trimSpace (s : Str) : Str :=
  ((s.dropWhile goIsSpace).reverse.dropWhile goIsSpace).reverse

/-- Model of Go `strings.TrimPrefix(id, "+")`: remove one leading `'+'`. -/
def trimPlusPrefix (s : Str) : Str :=
  match s with
  | '+' :: rest => rest
  | _ => s

/-- Model of `service.normalizeWhatsAppID` from `webhook.go`: trim whitespace,
return `""` for the empty id, cut at the first `'@'`, strip one leading
`'+'`, and trim again. -/
def normalizeWhatsAppID (id : Str) : Str :=
  let id := trimSpace id
  if id = [] then []
  else trimSpace (trimPlusPrefix (id.takeWhile (fun c => c ≠ '@')))

/-! ## Conversation store (`conversation.go`) -/

/-- Model of `openai.ChatCompletionMessage`, as used by the service: a role tag
and the text content of one conversation turn. -/
structure ChatCompletionMessage where
  role : Str
  content : Str
deriving DecidableEq, Repr

/-- The redis backing service, as a map from keys to stored turn lists
(the JSON encoding of the turn list is modelled by the list itself). -/
def RedisState := Str → Option (List ChatCompletionMessage)

def RedisState.get (st : RedisState) (k : Str) : Option (List ChatCompletionMessage) :=
  st k

def RedisState.set (st : RedisState) (k : Str) (v : List ChatCompletionMessage) :
    RedisState :=
  fun k' => if k' = k then some v else st k'

def emptyRedis : RedisState := fun _ => none

/-- The behavioural fields of `service.ConversationStore`. -/
structure ConversationStore where
  ttlHours : Nat
  maxMessages : Nat
deriving DecidableEq, Repr

/-- Model of `NewConversationStore` (success path): `ttl = 24h`, `maxMessages = 20`. -/
def NewConversationStore : ConversationStore := ⟨24, 20⟩

/-- Model of `ConversationStore.key`: `"conversation:" + user`. -/
def conversationKey (user : Str) : Str := str "conversation:" ++ user

/-- Model of `ConversationStore.GetConversation`. `s = none` models a nil receiver
(returns an empty history and no error); otherwise the backing `Get`
either fails transiently (`backendErr`), misses (`redis.Nil`, yielding an
empty history), or returns the stored turn list. -/
def GetConversation (s : Option ConversationStore) (st : RedisState)
    (backendErr : Option Str) (user : Str) :
    Except Str (List ChatCompletionMessage) :=
  match s with
  | none => .ok []
  | some _ =>
    match backendErr with
    | some e => .error e
    | none => .ok ((st.get (conversationKey user)).getD [])

/-- Model of `ConversationStore.SaveConversation`. `s = none` models a nil receiver
(a no-op); otherwise the turn list is truncated to the most-recent
`maxMessages` turns and written under the conversation key with a
refreshed TTL; `writeErr` models a failing redis `Set`. -/
def SaveConversation (s : Option ConversationStore) (st : RedisState)
    (writeErr : Option Str) (user : Str)
    (messages : List ChatCompletionMessage) :
    RedisState × Except Str Unit :=
  match s with
  | none => (st, .ok ())
  | some h =>
    let messages :=
      if messages.length > h.maxMessages then
        messages.drop (messages.length - h.maxMessages)
      else messages
    match writeErr with
    | some e => (st, .error e)
    | none => (st.set (conversationKey user) messages, .ok ())

/-- Model of `ConversationStore.Close`. A nil receiver returns no error; otherwise
the result is the redis client's `Close` result. -/
def Close (s : Option ConversationStore) (clientCloseErr : Option Str) :
    Except Str Unit :=
  match s with
  | none => .ok ()
  | some _ =>
    match clientCloseErr with
    | some e => .error e
    | none => .ok ()

/-- A sequence of `SaveConversation` calls threaded through the store state. -/
def runSaves (s : Option ConversationStore) :
    RedisState → List (Option Str × Str × List ChatCompletionMessage) → RedisState
  | st, [] => st
  | st, (werr, user, msgs) :: rest =>
      runSaves s (SaveConversation s st werr user msgs).1 rest

/-! ## Payload text extraction (`webhook.go`) -/

/-- The nested `extendedTextMessage` record. -/
structure ExtendedTextMessage where
  text : Str := []
deriving DecidableEq, Repr

/-- The nested quick-reply (`buttonsResponseMessage`) record. -/
structure ButtonsResponseMessage where
  selectedDisplayText : Str := []
  selectedButtonID : Str := []
deriving DecidableEq, Repr

/-- The body of the nested `interactiveResponseMessage` record. -/
structure InteractiveBody where
  text : Str := []
deriving DecidableEq, Repr

/-- The nested `interactiveResponseMessage` record. -/
structure InteractiveResponseMessage where
  body : Option InteractiveBody := none
deriving DecidableEq, Repr

/-- Model of `model.WebhookMessage` as consumed by `extractMessageText` and
`processWebhookMessage` (flat candidate text fields plus the nested
structured-reply records). -/
structure WebhookMessage where
  From : Str := []
  chatID : Str := []
  remoteJID : Str := []
  type : Str := []
  body : Str := []
  conversation : Str := []
  extendedText : Str := []
  text : Str := []
  audioURL : Option Str := none
  extendedTextMessage : Option ExtendedTextMessage := none
  buttonsResponseMessage : Option ButtonsResponseMessage := none
  interactiveResponseMessage : Option InteractiveResponseMessage := none
deriving DecidableEq, Repr

/-- The Go candidate loop: first candidate that is non-blank after
trimming, if any. -/
def firstNonBlank : List Str → Option Str
  | [] => none
  | c :: rest =>
    let t := trimSpace c
    if t = [] then firstNonBlank rest else some t

/-- Model of `service.extractMessageText` from `webhook.go`: the flat candidates
`body`, `text`, `conversation`, `extendedText` in that order, then the
nested `extendedTextMessage.text`, `buttonsResponseMessage`
(display text, then button id) and `interactiveResponseMessage.body.text`;
the first non-blank trimmed candidate wins, else the empty string. -/
def extractMessageText (msg : WebhookMessage) : Str :=
  match firstNonBlank [msg.body, msg.text, msg.conversation, msg.extendedText] with
  | some t => t
  | none =>
    match msg.extendedTextMessage.bind (fun e =>
        let t := trimSpace e.text
        if t = [] then none else some t) with
    | some t => t
    | none =>
      match msg.buttonsResponseMessage.bind (fun b =>
          let t := trimSpace b.selectedDisplayText
          if t = [] then
            let t2 := trimSpace b.selectedButtonID
            if t2 = [] then none else some t2
          else some t) with
      | some t => t
      | none =>
        match msg.interactiveResponseMessage.bind (fun i => i.body.bind (fun b =>
            let t := trimSpace b.text
            if t = [] then none else some t)) with
        | some t => t
        | none => []

/-- Modelled from the spec's words for claim C3, to be compared with
`extractMessageText`: candidate order plain body, conversation text,
generic text field, extended-text field, quick-reply selection text,
quick-reply selection id, interactive-body text. -/
def extractMessageTextClaimed (msg : WebhookMessage) : Str :=
  (firstNonBlank
    [msg.body, msg.conversation, msg.text, msg.extendedText,
     (msg.buttonsResponseMessage.map ButtonsResponseMessage.selectedDisplayText).getD [],
     (msg.buttonsResponseMessage.map ButtonsResponseMessage.selectedButtonID).getD [],
     ((msg.interactiveResponseMessage.bind InteractiveResponseMessage.body).map
        InteractiveBody.text).getD []]).getD []

/-! ## Reply generation (`webhook.go` store-backed revision, and the
store-less `config.go` / `part_000` revision) -/

/-- One candidate choice of a chat completion response (its message text). -/
structure ChatChoice where
  content : Str
deriving DecidableEq, Repr

/-- A chat completion response: zero or more candidate choices. -/
structure ChatResponse where
  choices : List ChatChoice
deriving DecidableEq, Repr

/-- The user turn appended before the completion call. -/
def userTurn (u : Str) : ChatCompletionMessage := ⟨str "user", u⟩

/-- The assistant turn appended after a non-blank reply. -/
def assistantTurn (r : Str) : ChatCompletionMessage := ⟨str "assistant", r⟩

/-- The model id: `cfg.OpenAIModel` trimmed, defaulting to `"gpt-4o-mini"`. -/
def modelId (cfgModel : Str) : Str :=
  if trimSpace cfgModel = [] then str "gpt-4o-mini" else trimSpace cfgModel

/-- The tail of `generateAssistantReply` after the history was loaded:
append the user turn, call the completion oracle with the chosen model id,
treat an absent or blank first choice as "no reply", and otherwise append
the assistant turn and save the capped history best-effort. -/
def genReplyRest (store : Option ConversationStore) (st : RedisState)
    (saveErr : Option Str)
    (completion : Str → List ChatCompletionMessage → Except Str ChatResponse)
    (cfgModel : Str) (normalizedID : Str)
    (conversation : List ChatCompletionMessage) (userInput : Str) :
    Except Str Str × RedisState :=
  match completion (modelId cfgModel) (conversation ++ [userTurn userInput]) with
  | .error e => (.error e, st)
  | .ok resp =>
    match resp.choices with
    | [] => (.ok [], st)
    | c :: _ =>
      if c.content = [] then (.ok [], st)
      else if trimSpace c.content = [] then (.ok [], st)
      else
        match store with
        | none => (.ok (trimSpace c.content), st)
        | some _ =>
          (.ok (trimSpace c.content),
           (SaveConversation store st saveErr normalizedID
             (conversation ++ [userTurn userInput]
               ++ [assistantTurn (trimSpace c.content)])).1)

/-- The history loaded at the top of `generateAssistantReply`: a failing
load is logged and degrades to the empty history. -/
def loadedHistory (store : Option ConversationStore) (st : RedisState)
    (getErr : Option Str) (normalizedID : Str) : List ChatCompletionMessage :=
  match GetConversation store st getErr normalizedID with
  | .error _ => []
  | .ok stored => stored

/-- Model of `service.generateAssistantReply` from `webhook.go`: normalize the
recipient (an empty normalized id means "no reply" without error), load
the history, then `genReplyRest`. The result is the `(reply, error)`
value together with the store state after the best-effort save. -/
def generateAssistantReply (store : Option ConversationStore) (st : RedisState)
    (getErr saveErr : Option Str)
    (completion : Str → List ChatCompletionMessage → Except Str ChatResponse)
    (cfgModel : Str) (recipient userInput : Str) :
    Except Str Str × RedisState :=
  if normalizeWhatsAppID recipient = [] then (.ok [], st)
  else
    genReplyRest store st saveErr completion cfgModel
      (normalizeWhatsAppID recipient)
      (loadedHistory store st getErr (normalizeWhatsAppID recipient)) userInput

/-- Model of `buildChatReply` from the store-less pipeline (`config.go`,
`src/unnamed/part_000`): a fixed system preamble plus the one user turn;
a response with zero choices is an error; otherwise the trimmed first
choice is returned (possibly blank, without being treated specially). -/
def buildChatReply
    (completion : Str → List ChatCompletionMessage → Except Str ChatResponse)
    (prompt : Str) : Except Str Str :=
  match completion (str "gpt-4o-mini")
      [⟨str "system",
        str "Você é um assistente do WhatsApp. Responda de forma breve e amigável."⟩,
       userTurn prompt] with
  | .error e => .error e
  | .ok resp =>
    match resp.choices with
    | [] => .error (str "chat completion returned no choices")
    | c :: _ => .ok (trimSpace c.content)

/-! ## Store-less event pipeline (`config.go` / `src/unnamed/part_000`) -/

/-- Model of `model.WebhookMessage` of the store-less pipeline: sender id, message
type, text body and optional audio reference (the `audio.url` field). -/
structure WebhookMessageV0 where
  From : Str := []
  type : Str := []
  body : Str := []
  audio : Option Str := none
deriving DecidableEq, Repr

/-- The observable external calls made by `handleIncomingMessage`,
in order. -/
inductive Action
  | transcribe (url : Str)
  | chatCompletion
  | sendText (recipient text : Str)
  | synthesize (text : Str)
  | sendAudio (recipient : Str)
deriving DecidableEq, Repr

/-- Model of `handleIncomingMessage` from the store-less pipeline: missing sender
and missing audio url are errors; transcription and completion failures
are fatal; a text-send failure is fatal; synthesis and audio-send
failures are logged only. Returns the handler result together with the
trace of external calls performed. -/
def handleIncomingMessage (msg : WebhookMessageV0)
    (transcribeResult : Str → Except Str Str)
    (completion : Str → List ChatCompletionMessage → Except Str ChatResponse)
    (sendTextResult : Except Str Unit)
    (synthResult : Except Str (List Nat))
    (sendAudioResult : Except Str Unit) :
    Except Str Unit × List Action :=
  if msg.From = [] then (.error (str "missing sender id"), [])
  else
    match
      (if msg.type = str "audio" ∨ msg.type = str "ptt" then
        match msg.audio with
        | none => (.error (str "audio message missing url"), [])
        | some url =>
          if url = [] then (.error (str "audio message missing url"), [])
          else
            match transcribeResult url with
            | .error e =>
              ((.error (str "transcribe audio: " ++ e) : Except Str Str),
               [Action.transcribe url])
            | .ok t => (.ok (trimSpace t), [Action.transcribe url])
      else ((.ok (trimSpace msg.body) : Except Str Str), [])) with
    | (.error e, acts) => (.error e, acts)
    | (.ok userInput, acts) =>
      if userInput = [] then (.error (str "empty message content"), acts)
      else
        match buildChatReply completion userInput with
        | .error e =>
          (.error (str "chat completion: " ++ e), acts ++ [Action.chatCompletion])
        | .ok reply =>
          match sendTextResult with
          | .error e =>
            (.error (str "send text: " ++ e),
             acts ++ [Action.chatCompletion, Action.sendText msg.From reply])
          | .ok _ =>
            match synthResult with
            | .error _ =>
              (.ok (),
               acts ++ [Action.chatCompletion, Action.sendText msg.From reply,
                 Action.synthesize reply])
            | .ok _ =>
              match sendAudioResult with
              | .error _ =>
                (.ok (),
                 acts ++ [Action.chatCompletion, Action.sendText msg.From reply,
                   Action.synthesize reply, Action.sendAudio msg.From])
              | .ok _ =>
                (.ok (),
                 acts ++ [Action.chatCompletion, Action.sendText msg.From reply,
                   Action.synthesize reply, Action.sendAudio msg.From])

/-- Does an action belong to the best-effort audio step? -/
def isAudioStepAction : Action → Bool
  | Action.synthesize _ => true
  | Action.sendAudio _ => true
  | _ => false

/-- Is an action the text dispatch? -/
def isSendTextAction : Action → Bool
  | Action.sendText _ _ => true
  | _ => false

/-- Did the handler return an error? -/
def isErr {α : Type} : Except Str α → Bool
  | .error _ => true
  | .ok _ => false

/-! ## Webhook HTTP handlers -/

/-- Model of `service.WebhookHandler` from `webhook.go` (store-backed revision):
the HTTP status written for one request. `bodyReadOk` models reading the
request body; `decoded` is the decoded envelope's event discriminator
(`none` = malformed JSON); `processResult` is the outcome of the event
processing, which this revision only logs — every decoded POST is
answered 200. -/
def webhookHandlerStatus (method : Str) (bodyReadOk : Bool)
    (decoded : Option Str) (processResult : Except Str Unit) : Nat :=
  if ¬ method = str "POST" then 405
  else if ¬ bodyReadOk then 400
  else
    match decoded with
    | none => 400
    | some _ =>
      match processResult with
      | .error _ => 200
      | .ok _ => 200

/-- Model of `webhookHandler` from the store-less revision (`config.go`,
`src/unnamed/part_000`): a processing error yields 500, success 200. -/
def webhookHandlerStatusNoStore (method : Str) (decodeOk : Bool)
    (processResult : Except Str Unit) : Nat :=
  if ¬ method = str "POST" then 405
  else if ¬ decodeOk then 400
  else
    match processResult with
    | .error _ => 500
    | .ok _ => 200

/-! ## Outbound audio dispatch (`conversation.go` revision of
`EvolutionClient.SendAudioMessage`) -/

/-- JSON-like payload bodies, enough to express the alternative shapes. -/
inductive JsonVal
  | s (v : Str)
  | obj (fields : List (Str × JsonVal))

/-- Model of `strings.Contains` on the character-list model. -/
def containsSub (hay needle : Str) : Bool :=
  if needle.isPrefixOf hay then true
  else
    match hay with
    | [] => false
    | _ :: t => containsSub t needle

/-- Model of `strings.ToLower` (ASCII is all the error strings use). -/
def toLowerStr (s : Str) : Str := s.map Char.toLower

/-- The retry trigger: the lower-cased error message contains
`"owned media must be a url or base64"`. -/
def ownedMediaErrCond (errMsg : Str) : Bool :=
  containsSub (toLowerStr errMsg) (str "owned media must be a url or base64")

/-- The retry loop of `SendAudioMessage` over the per-shape POST results:
success returns at once; a failure advances to the next shape only when
it carries the owned-media condition and the shape is not the last,
otherwise the error is returned. -/
def sendAudioLoop : List (Except Str Unit) → Except Str Unit
  | [] => .ok ()
  | [r] =>
    match r with
    | .ok _ => .ok ()
    | .error e => .error e
  | r :: rest =>
    match r with
    | .ok _ => .ok ()
    | .error e => if ownedMediaErrCond e then sendAudioLoop rest else .error e

/-- The five alternative body shapes attempted by `SendAudioMessage`,
in order. -/
def audioPayloads (recipient b64 : Str) : List JsonVal :=
  [ .obj [(str "number", .s recipient), (str "mediatype", .s (str "audio")),
      (str "data", .s b64)],
    .obj [(str "number", .s recipient), (str "mediatype", .s (str "audio")),
      (str "file", .s b64)],
    .obj [(str "number", .s recipient), (str "mediatype", .s (str "audio")),
      (str "media", .s b64)],
    .obj [(str "number", .s recipient), (str "mediatype", .s (str "audio")),
      (str "mediaData", .obj [(str "base64", .s b64)])],
    .obj [(str "number", .s recipient),
      (str "mediaMessage", .obj [(str "mediaType", .s (str "audio")),
        (str "media", .s b64)])] ]

/-- Model of `EvolutionClient.SendAudioMessage` (conversation.go revision): try the
shapes in order against the gateway POST oracle. -/
def SendAudioMessage (post : JsonVal → Except Str Unit)
    (recipient b64 : Str) : Except Str Unit :=
  sendAudioLoop ((audioPayloads recipient b64).map post)

lemma trimSpace_eq_rdropWhile (s : Str) :
    trimSpace s = (s.dropWhile goIsSpace).rdropWhile goIsSpace := rfl

lemma dropWhile_trimSpace (s : Str) :
    (trimSpace s).dropWhile goIsSpace = trimSpace s := by
  rw [trimSpace_eq_rdropWhile]
  rcases h : (s.dropWhile goIsSpace).rdropWhile goIsSpace with _ | ⟨a, t⟩
  · simp
  · have hpre : (s.dropWhile goIsSpace).rdropWhile goIsSpace <+: s.dropWhile goIsSpace :=
      List.rdropWhile_prefix goIsSpace _
    rw [h] at hpre
    obtain ⟨r, hr⟩ := hpre
    have h0 : 0 < (s.dropWhile goIsSpace).length := by
      rw [← hr]; simp
    have hnot := List.dropWhile_get_zero_not (p := goIsSpace) s h0
    have hget : (s.dropWhile goIsSpace).get ⟨0, h0⟩ = a := by
      have : s.dropWhile goIsSpace = a :: (t ++ r) := by
        rw [← hr]; simp
      simp [this]
    rw [hget] at hnot
    simp [List.dropWhile_cons, hnot]

lemma trimSpace_idem (s : Str) : trimSpace (trimSpace s) = trimSpace s := by
  have h1 : trimSpace (trimSpace s)
      = ((trimSpace s).dropWhile goIsSpace).rdropWhile goIsSpace := rfl
  rw [h1, dropWhile_trimSpace, trimSpace_eq_rdropWhile]
  exact List.rdropWhile_idempotent goIsSpace _

lemma mem_trimSpace {s : Str} {c : Char} (h : c ∈ trimSpace s) : c ∈ s := by
  rw [trimSpace_eq_rdropWhile] at h
  have h1 := ( List.rdropWhile_prefix goIsSpace (s.dropWhile goIsSpace)).subset h
  exact (List.dropWhile_sublist goIsSpace).subset h1

lemma mem_trimPlusPrefix {s : Str} {c : Char} (h : c ∈ trimPlusPrefix s) : c ∈ s := by
  cases s with
  | nil => exact h
  | cons a t =>
    by_cases ha : a = '+'
    · subst ha
      exact List.mem_cons_of_mem _ h
    · simpa [trimPlusPrefix, ha] using h

lemma normalize_no_at {x : Str} {c : Char} (h : c ∈ normalizeWhatsAppID x) : c ≠ '@' := by
  unfold normalizeWhatsAppID at h
  by_cases hx : trimSpace x = []
  · simp [hx] at h
  · simp only [hx, if_neg, if_false] at h
    have h1 := mem_trimSpace h
    have h2 := mem_trimPlusPrefix h1
    have := List.mem_takeWhile_imp h2
    simpa using this

lemma trimSpace_normalize (x : Str) :
    trimSpace (normalizeWhatsAppID x) = normalizeWhatsAppID x := by
  unfold normalizeWhatsAppID
  by_cases hx : trimSpace x = []
  · simp [hx, trimSpace_eq_rdropWhile]
  · simp only [hx, if_neg, if_false]
    exact trimSpace_idem _

/-- C1 (amended): SenderKey normalization maps `"5511999@c.us"`, `"+5511999"`
and `"5511999"` all to `"5511999"`, and `normalize(normalize(x)) == normalize(x)`
holds for every id `x` whose normalized form does not itself begin with `'+'`
(for ids such as `"++5511999"`, whose normalized form keeps a leading `'+'`,
a second normalization strips one more `'+'`). -/
theorem C1_normalize_idempotent_amended (x : Str)
    (h : (normalizeWhatsAppID x).head? ≠ some '+') :
    normalizeWhatsAppID (normalizeWhatsAppID x) = normalizeWhatsAppID x
    ∧ normalizeWhatsAppID (str "5511999@c.us") = str "5511999"
    ∧ normalizeWhatsAppID (str "+5511999") = str "5511999"
    ∧ normalizeWhatsAppID (str "5511999") = str "5511999" := by
  refine ⟨?_, by decide, by decide, by decide⟩
  have htrim := trimSpace_normalize x
  rcases hy : normalizeWhatsAppID x with _ | ⟨a, t⟩
  · show normalizeWhatsAppID [] = []
    decide
  · rw [hy] at htrim h
    have ha : a ≠ '+' := by
      intro hh
      exact h (by rw [hh]; rfl)
    have hat : ∀ c ∈ a :: t, c ≠ '@' := by
      intro c hc
      exact normalize_no_at (hy ▸ hc)
    have htake : (a :: t).takeWhile (fun c => c ≠ '@') = a :: t := by
      rw [List.takeWhile_eq_self_iff]
      intro c hc
      simpa using hat c hc
    have hplus : trimPlusPrefix (a :: t) = a :: t := by
      unfold trimPlusPrefix
      split
      · next rest heq =>
          injection heq with h1 h2
          exact absurd h1 ha
      · rfl
    unfold normalizeWhatsAppID
    rw [htrim]
    simp only [if_neg (List.cons_ne_nil a t)]
    rw [htake, hplus, htrim]

/-- Witness for C1 at the concrete id `"+5511999"`. -/
theorem C1_witness :
    (normalizeWhatsAppID (str "+5511999")).head? ≠ some '+'
    ∧ normalizeWhatsAppID (normalizeWhatsAppID (str "+5511999"))
        = normalizeWhatsAppID (str "+5511999") :=
  ⟨by decide, (C1_normalize_idempotent_amended (str "+5511999") (by decide)).1⟩

/-- C1 counterexample: on the raw id `"++5511999"` normalization is not
idempotent — one pass yields `"+5511999"`, a second pass yields `"5511999"`. -/
theorem C1_counterexample :
    normalizeWhatsAppID (normalizeWhatsAppID (str "++5511999"))
      ≠ normalizeWhatsAppID (str "++5511999") := by decide

lemma get_set_self (st : RedisState) (k : Str) (v : List ChatCompletionMessage) :
    (st.set k v).get k = some v := by
  simp [RedisState.get, RedisState.set]

lemma get_set_ne (st : RedisState) {k k' : Str} (v : List ChatCompletionMessage)
    (h : k' ≠ k) : (st.set k v).get k' = st.get k' := by
  simp [RedisState.get, RedisState.set, h]

lemma save_preserves_cap (st : RedisState) (werr : Option Str) (user : Str)
    (msgs : List ChatCompletionMessage)
    (hinv : ∀ k v, st.get k = some v → v.length ≤ 20) :
    ∀ k v, (SaveConversation (some NewConversationStore) st werr user msgs).1.get k
      = some v → v.length ≤ 20 := by
  intro k v hget
  unfold SaveConversation at hget
  cases werr with
  | some e => exact hinv k v hget
  | none =>
    simp only [NewConversationStore] at hget
    by_cases hk : k = conversationKey user
    · subst hk
      rw [get_set_self] at hget
      cases hget
      split
      · next hlen =>
          simp only [List.length_drop]
          omega
      · next hlen => omega
    · rw [get_set_ne _ _ hk] at hget
      exact hinv k v hget

lemma runSaves_cap (ops : List (Option Str × Str × List ChatCompletionMessage)) :
    ∀ (st : RedisState), (∀ k v, st.get k = some v → v.length ≤ 20) →
      ∀ k v, (runSaves (some NewConversationStore) st ops).get k = some v →
        v.length ≤ 20 := by
  induction ops with
  | nil => intro st hinv k v hget; exact hinv k v hget
  | cons op rest ih =>
    intro st hinv k v hget
    obtain ⟨werr, user, msgs⟩ := op
    exact ih _ (save_preserves_cap st werr user msgs hinv) k v hget

/-- C2: the history written by `SaveConversation` never exceeds 20 turns
(also after any sequence of saves starting from an empty store); when the
input list is longer than 20 the excess is dropped from the front, keeping
the 20 most-recent turns in order; saving a 21st turn drops turn 1 and
keeps turns 2..21. -/
theorem C2_history_cap_twenty
    (ops : List (Option Str × Str × List ChatCompletionMessage))
    (st : RedisState) (user : Str) (msgs : List ChatCompletionMessage)
    (turn1 : ChatCompletionMessage) (rest : List ChatCompletionMessage)
    (hover : msgs.length > 20) (hrest : rest.length = 20) :
    (∀ k v, (runSaves (some NewConversationStore) emptyRedis ops).get k = some v →
        v.length ≤ 20)
    ∧ (SaveConversation (some NewConversationStore) st none user msgs).1.get
        (conversationKey user) = some (msgs.drop (msgs.length - 20))
    ∧ (msgs.drop (msgs.length - 20)).length = 20
    ∧ (SaveConversation (some NewConversationStore) st none user (turn1 :: rest)).1.get
        (conversationKey user) = some rest := by
  refine ⟨?_, ?_, ?_, ?_⟩
  · exact runSaves_cap ops emptyRedis (by intro k v h; simp [RedisState.get, emptyRedis] at h)
  · unfold SaveConversation
    simp only [NewConversationStore]
    rw [if_pos hover]
    exact get_set_self _ _ _
  · simp only [List.length_drop]; omega
  · unfold SaveConversation
    simp only [NewConversationStore]
    have hlen : (turn1 :: rest).length > 20 := by simp [hrest]
    rw [if_pos hlen]
    have hdrop : (turn1 :: rest).length - 20 = 1 := by simp [hrest]
    rw [hdrop]
    simpa using get_set_self _ _ _

/-- Witness for C2 with a concrete 21-turn history. -/
theorem C2_witness :
    (List.replicate 21 (⟨str "user", str "hi"⟩ : ChatCompletionMessage)).length > 20
    ∧ (List.replicate 20 (⟨str "user", str "hi"⟩ : ChatCompletionMessage)).length = 20
    ∧ (SaveConversation (some NewConversationStore) emptyRedis none (str "u")
        (List.replicate 21 ⟨str "user", str "hi"⟩)).1.get (conversationKey (str "u"))
      = some ((List.replicate 21
          (⟨str "user", str "hi"⟩ : ChatCompletionMessage)).drop
            ((List.replicate 21
              (⟨str "user", str "hi"⟩ : ChatCompletionMessage)).length - 20)) := by
  refine ⟨by decide, by decide, ?_⟩
  exact (C2_history_cap_twenty [] emptyRedis (str "u")
    (List.replicate 21 ⟨str "user", str "hi"⟩)
    ⟨str "user", str "hi"⟩ (List.replicate 20 ⟨str "user", str "hi"⟩)
    (by decide) (by decide)).2.1

lemma firstNonBlank_append (l1 l2 : List Str) :
    firstNonBlank (l1 ++ l2) = (firstNonBlank l1).or (firstNonBlank l2) := by
  induction l1 with
  | nil => simp [firstNonBlank]
  | cons c rest ih =>
    by_cases hc : trimSpace c = []
    · simp [firstNonBlank, hc, ih]
    · simp [firstNonBlank, hc, Option.or]

lemma trimSpace_nil : trimSpace [] = [] := rfl

lemma ext_candidate_eq (o : Option ExtendedTextMessage) :
    firstNonBlank [(o.map ExtendedTextMessage.text).getD []]
      = o.bind (fun e =>
          let t := trimSpace e.text
          if t = [] then none else some t) := by
  cases o with
  | none => simp [firstNonBlank, trimSpace_nil]
  | some e =>
    by_cases he : trimSpace e.text = [] <;> simp [firstNonBlank, he]

lemma btn_candidates_eq (o : Option ButtonsResponseMessage) :
    firstNonBlank
      [(o.map ButtonsResponseMessage.selectedDisplayText).getD [],
       (o.map ButtonsResponseMessage.selectedButtonID).getD []]
      = o.bind (fun b =>
          let t := trimSpace b.selectedDisplayText
          if t = [] then
            let t2 := trimSpace b.selectedButtonID
            if t2 = [] then none else some t2
          else some t) := by
  cases o with
  | none => simp [firstNonBlank, trimSpace_nil]
  | some b =>
    by_cases h1 : trimSpace b.selectedDisplayText = [] <;>
      by_cases h2 : trimSpace b.selectedButtonID = [] <;>
        simp [firstNonBlank, h1, h2]

lemma intr_candidate_eq (o : Option InteractiveResponseMessage) :
    firstNonBlank
      [((o.bind InteractiveResponseMessage.body).map InteractiveBody.text).getD []]
      = o.bind (fun i => i.body.bind (fun b =>
          let t := trimSpace b.text
          if t = [] then none else some t)) := by
  cases o with
  | none => simp [firstNonBlank, trimSpace_nil]
  | some i =>
    cases hib : i.body with
    | none => simp [firstNonBlank, trimSpace_nil, hib]
    | some b =>
      by_cases hb : trimSpace b.text = [] <;> simp [firstNonBlank, hib, hb]

/-- C3 (amended): text extraction returns the first candidate that is
non-blank after trimming, in the order plain body, generic text field,
conversation text, flat extended-text field, nested extended-text-message
text, quick-reply selection text, quick-reply selection id,
interactive-body text — and the empty string when every candidate is
blank. (The claim's order put conversation text before the generic text
field and omitted the nested extended-text-message candidate.) -/
theorem C3_extract_order_amended (msg : WebhookMessage) :
    extractMessageText msg =
      (firstNonBlank
        [msg.body, msg.text, msg.conversation, msg.extendedText,
         (msg.extendedTextMessage.map ExtendedTextMessage.text).getD [],
         (msg.buttonsResponseMessage.map ButtonsResponseMessage.selectedDisplayText).getD [],
         (msg.buttonsResponseMessage.map ButtonsResponseMessage.selectedButtonID).getD [],
         ((msg.interactiveResponseMessage.bind InteractiveResponseMessage.body).map
            InteractiveBody.text).getD []]).getD [] := by
  have hsplit :
      [msg.body, msg.text, msg.conversation, msg.extendedText,
       (msg.extendedTextMessage.map ExtendedTextMessage.text).getD [],
       (msg.buttonsResponseMessage.map ButtonsResponseMessage.selectedDisplayText).getD [],
       (msg.buttonsResponseMessage.map ButtonsResponseMessage.selectedButtonID).getD [],
       ((msg.interactiveResponseMessage.bind InteractiveResponseMessage.body).map
          InteractiveBody.text).getD []]
      = [msg.body, msg.text, msg.conversation, msg.extendedText] ++
        ([(msg.extendedTextMessage.map ExtendedTextMessage.text).getD []] ++
         ([(msg.buttonsResponseMessage.map ButtonsResponseMessage.selectedDisplayText).getD [],
           (msg.buttonsResponseMessage.map ButtonsResponseMessage.selectedButtonID).getD []] ++
          [((msg.interactiveResponseMessage.bind InteractiveResponseMessage.body).map
              InteractiveBody.text).getD []])) := by simp
  rw [hsplit]
  rw [firstNonBlank_append, firstNonBlank_append, firstNonBlank_append,
    ext_candidate_eq, btn_candidates_eq, intr_candidate_eq]
  unfold extractMessageText
  cases hf : firstNonBlank [msg.body, msg.text, msg.conversation, msg.extendedText] with
  | some t => simp [Option.or]
  | none =>
    simp only [Option.none_or]
    cases he : msg.extendedTextMessage.bind (fun e =>
        let t := trimSpace e.text
        if t = [] then none else some t) with
    | some t => simp [Option.or]
    | none =>
      simp only [Option.none_or]
      cases hb : msg.buttonsResponseMessage.bind (fun b =>
          let t := trimSpace b.selectedDisplayText
          if t = [] then
            let t2 := trimSpace b.selectedButtonID
            if t2 = [] then none else some t2
          else some t) with
      | some t => simp [Option.or]
      | none =>
        simp only [Option.none_or]
        cases hi : msg.interactiveResponseMessage.bind (fun i => i.body.bind (fun b =>
            let t := trimSpace b.text
            if t = [] then none else some t)) with
        | some t => simp
        | none => simp

/-- C3 counterexample: on a message whose generic `text` field is `"a"`
and whose `conversation` field is `"b"`, the code returns `"a"` (it tries
`text` before `conversation`), while the claim's order (conversation text
before the generic text field) dictates `"b"`. -/
theorem C3_counterexample :
    extractMessageText { text := str "a", conversation := str "b" } = str "a"
    ∧ extractMessageTextClaimed { text := str "a", conversation := str "b" } = str "b"
    ∧ extractMessageText { text := str "a", conversation := str "b" }
        ≠ extractMessageTextClaimed { text := str "a", conversation := str "b" } := by
  refine ⟨by decide, by decide, by decide⟩

/-- The `(reply, error)` component of `genReplyRest` depends only on the
completion oracle, the model configuration, the history and the user
input — not on the store handle, the store state, the save-error oracle,
or the key. -/
lemma genReplyRest_fst (store store' : Option ConversationStore)
    (st st' : RedisState) (se se' : Option Str)
    (completion : Str → List ChatCompletionMessage → Except Str ChatResponse)
    (cfgModel nid nid' : Str) (conv : List ChatCompletionMessage) (ui : Str) :
    (genReplyRest store st se completion cfgModel nid conv ui).1
      = (genReplyRest store' st' se' completion cfgModel nid' conv ui).1 := by
  unfold genReplyRest
  cases completion (modelId cfgModel) (conv ++ [userTurn ui]) with
  | error e => rfl
  | ok resp =>
    obtain ⟨choices⟩ := resp
    cases choices with
    | nil => rfl
    | cons c cs =>
      by_cases hc : c.content = []
      · simp [hc]
      · by_cases hr : trimSpace c.content = []
        · simp [hc, hr]
        · cases store <;> cases store' <;> simp [hc, hr]

/-- With no store handle, `genReplyRest` never touches the state. -/
lemma genReplyRest_none_snd (st : RedisState) (se : Option Str)
    (completion : Str → List ChatCompletionMessage → Except Str ChatResponse)
    (cfgModel nid : Str) (conv : List ChatCompletionMessage) (ui : Str) :
    (genReplyRest none st se completion cfgModel nid conv ui).2 = st := by
  unfold genReplyRest
  cases completion (modelId cfgModel) (conv ++ [userTurn ui]) with
  | error e => rfl
  | ok resp =>
    obtain ⟨choices⟩ := resp
    cases choices with
    | nil => rfl
    | cons c cs =>
      by_cases hc : c.content = []
      · simp [hc]
      · by_cases hr : trimSpace c.content = []
        · simp [hc, hr]
        · simp [hc, hr]

lemma loadedHistory_getErr (store : Option ConversationStore) (st : RedisState)
    (e : Str) (nid : Str) : loadedHistory store st (some e) nid = [] := by
  cases store <;> simp [loadedHistory, GetConversation]

lemma loadedHistory_emptyRedis (store : Option ConversationStore)
    (getErr : Option Str) (nid : Str) :
    loadedHistory store emptyRedis getErr nid = [] := by
  cases store <;> cases getErr <;>
    simp [loadedHistory, GetConversation, emptyRedis, RedisState.get]

/-- C7 (amended): in the store-backed pipeline, a completion response with
zero choices or a first choice that is blank after trimming makes
`generateAssistantReply` return an empty reply with no error and leave the
store state untouched; in the store-less pipeline, however,
`buildChatReply` returns an error (not an empty no-reply) when the
response has zero choices, and returns the trimmed first-choice text
without error otherwise. -/
theorem C7_no_reply_amended (store : Option ConversationStore) (st : RedisState)
    (getErr saveErr : Option Str) (cfgModel recipient userInput prompt : Str)
    (resp : ChatResponse) (c : ChatChoice) (cs : List ChatChoice)
    (hresp : resp.choices = [] ∨
      ∃ c rest, resp.choices = c :: rest ∧ trimSpace c.content = []) :
    generateAssistantReply store st getErr saveErr (fun _ _ => .ok resp)
        cfgModel recipient userInput = (.ok [], st)
    ∧ buildChatReply (fun _ _ => .ok ⟨[]⟩) prompt
        = .error (str "chat completion returned no choices")
    ∧ buildChatReply (fun _ _ => .ok ⟨c :: cs⟩) prompt
        = .ok (trimSpace c.content) := by
  refine ⟨?_, rfl, rfl⟩
  by_cases hid : normalizeWhatsAppID recipient = []
  · simp [generateAssistantReply, hid]
  · rcases hresp with hnil | ⟨c', rest, hcons, hblank⟩
    · simp [generateAssistantReply, genReplyRest, hid, hnil]
    · by_cases hc : c'.content = []
      · simp [generateAssistantReply, genReplyRest, hid, hcons, hc]
      · simp [generateAssistantReply, genReplyRest, hid, hcons, hc, hblank]

/-- Witness for C7 with a zero-choice response and a concrete untrimmed
first choice. -/
theorem C7_witness :
    ((⟨[]⟩ : ChatResponse).choices = [] ∨
      ∃ c rest, (⟨[]⟩ : ChatResponse).choices = c :: rest ∧ trimSpace c.content = [])
    ∧ generateAssistantReply (some NewConversationStore) emptyRedis none none
        (fun _ _ => .ok ⟨[]⟩) [] (str "5511999") (str "oi") = (.ok [], emptyRedis)
    ∧ buildChatReply (fun _ _ => .ok ⟨[⟨str " ola "⟩]⟩) (str "oi")
        = .ok (trimSpace (str " ola ")) :=
  ⟨Or.inl rfl,
   (C7_no_reply_amended (some NewConversationStore) emptyRedis none none
      [] (str "5511999") (str "oi") (str "oi") ⟨[]⟩ ⟨str " ola "⟩ []
      (Or.inl rfl)).1,
   (C7_no_reply_amended (some NewConversationStore) emptyRedis none none
      [] (str "5511999") (str "oi") (str "oi") ⟨[]⟩ ⟨str " ola "⟩ []
      (Or.inl rfl)).2.2⟩

/-- C7 counterexample: `buildChatReply` turns a zero-choice completion
response into an error, where the claim demands an empty reply and no
error. -/
theorem C7_counterexample :
    buildChatReply (fun _ _ => .ok ⟨[]⟩) (str "oi")
      = .error (str "chat completion returned no choices")
    ∧ ∀ r, buildChatReply (fun _ _ => .ok ⟨[]⟩) (str "oi") ≠ .ok r :=
  ⟨rfl, fun r h => by
    rw [show buildChatReply (fun _ _ => .ok ⟨[]⟩) (str "oi")
        = .error (str "chat completion returned no choices") from rfl] at h
    exact Except.noConfusion h⟩

/-- C8: Session Store errors never change the outcome of
`generateAssistantReply`: a failing `GetConversation` degrades to the
empty history (the `(reply, error)` result equals the run against an
empty store with no load error), and a failing `SaveConversation` never
shows in the returned `(reply, error)` value. -/
theorem C8_store_errors_nonfatal (store : Option ConversationStore)
    (st : RedisState) (e f : Str) (getErr saveErr : Option Str)
    (completion : Str → List ChatCompletionMessage → Except Str ChatResponse)
    (cfgModel recipient userInput : Str) :
    (generateAssistantReply store st (some e) saveErr completion
        cfgModel recipient userInput).1
      = (generateAssistantReply store emptyRedis none saveErr completion
          cfgModel recipient userInput).1
    ∧ (generateAssistantReply store st getErr (some f) completion
        cfgModel recipient userInput).1
      = (generateAssistantReply store st getErr none completion
          cfgModel recipient userInput).1 := by
  constructor
  · unfold generateAssistantReply
    by_cases hid : normalizeWhatsAppID recipient = []
    · simp [hid]
    · simp only [hid, if_neg, if_false]
      rw [loadedHistory_getErr, loadedHistory_emptyRedis]
      exact genReplyRest_fst _ _ _ _ _ _ _ _ _ _ _ _
  · unfold generateAssistantReply
    by_cases hid : normalizeWhatsAppID recipient = []
    · simp [hid]
    · simp only [hid, if_neg, if_false]
      exact genReplyRest_fst _ _ _ _ _ _ _ _ _ _ _ _

/-- C10: every `ConversationStore` operation is total and safe on a nil
receiver — `GetConversation` yields an empty history and no error,
`SaveConversation` is an error-free no-op, `Close` returns no error — and
`generateAssistantReply` run with no store returns the same
`(reply, error)` value as a run against an empty store, leaving the state
untouched. -/
theorem C10_nil_store_safe (st : RedisState)
    (backendErr writeErr closeErr getErr saveErr : Option Str)
    (user : Str) (msgs : List ChatCompletionMessage)
    (completion : Str → List ChatCompletionMessage → Except Str ChatResponse)
    (cfgModel recipient userInput : Str) :
    GetConversation none st backendErr user = .ok []
    ∧ SaveConversation none st writeErr user msgs = (st, .ok ())
    ∧ Close none closeErr = .ok ()
    ∧ (generateAssistantReply none st getErr saveErr completion
        cfgModel recipient userInput).1
      = (generateAssistantReply (some NewConversationStore) emptyRedis none none
          completion cfgModel recipient userInput).1
    ∧ (generateAssistantReply none st getErr saveErr completion
        cfgModel recipient userInput).2 = st := by
  refine ⟨rfl, rfl, rfl, ?_, ?_⟩
  · unfold generateAssistantReply
    by_cases hid : normalizeWhatsAppID recipient = []
    · simp [hid]
    · simp only [hid, if_neg, if_false]
      have h1 : loadedHistory none st getErr (normalizeWhatsAppID recipient) = [] := by
        cases getErr <;> simp [loadedHistory, GetConversation]
      rw [h1, loadedHistory_emptyRedis]
      exact genReplyRest_fst _ _ _ _ _ _ _ _ _ _ _ _
  · unfold generateAssistantReply
    by_cases hid : normalizeWhatsAppID recipient = []
    · simp [hid]
    · simp only [hid, if_neg, if_false]
      exact genReplyRest_none_snd _ _ _ _ _ _ _

/-- C5: when the gateway text send fails, `handleIncomingMessage` returns
an error and its call trace contains no speech synthesis and no audio
dispatch — in particular, when the reply had been produced and the text
dispatch was attempted, the returned error is the wrapped send failure. -/
theorem C5_text_send_fail_no_audio (msg : WebhookMessageV0)
    (transcribeResult : Str → Except Str Str)
    (completion : Str → List ChatCompletionMessage → Except Str ChatResponse)
    (synthResult : Except Str (List Nat)) (sendAudioResult : Except Str Unit)
    (e : Str) :
    isErr (handleIncomingMessage msg transcribeResult completion (.error e)
        synthResult sendAudioResult).1 = true
    ∧ (handleIncomingMessage msg transcribeResult completion (.error e)
        synthResult sendAudioResult).2.filter isAudioStepAction = [] := by
  unfold handleIncomingMessage
  by_cases hfrom : msg.From = []
  · simp [hfrom, isErr]
  · simp only [hfrom, if_neg, if_false]
    by_cases htype : msg.type = str "audio" ∨ msg.type = str "ptt"
    · simp only [htype, if_pos, if_true]
      cases haud : msg.audio with
      | none => simp [isErr]
      | some url =>
        by_cases hurl : url = []
        · simp [hurl, isErr]
        · simp only [hurl, if_neg, if_false]
          cases ht : transcribeResult url with
          | error te => simp [isErr, isAudioStepAction]
          | ok t =>
            by_cases hin : trimSpace t = []
            · simp [hin, isErr, isAudioStepAction]
            · simp only [hin, if_neg, if_false]
              cases hb : buildChatReply completion (trimSpace t) with
              | error be => simp [isErr, isAudioStepAction]
              | ok reply => simp [isErr, isAudioStepAction, isSendTextAction]
    · simp only [htype, if_neg, if_false]
      by_cases hin : trimSpace msg.body = []
      · simp [hin, isErr]
      · simp only [hin, if_neg, if_false]
        cases hb : buildChatReply completion (trimSpace msg.body) with
        | error be => simp [isErr, isAudioStepAction]
        | ok reply => simp [isErr, isAudioStepAction]

/-- C6: once the text reply was dispatched successfully (the trace contains
the text dispatch), the handler returns no error whatever the speech
synthesis and audio dispatch do — in particular when either of them
fails. -/
theorem C6_audio_best_effort (msg : WebhookMessageV0)
    (transcribeResult : Str → Except Str Str)
    (completion : Str → List ChatCompletionMessage → Except Str ChatResponse)
    (synthResult : Except Str (List Nat)) (sendAudioResult : Except Str Unit)
    (hsent : (handleIncomingMessage msg transcribeResult completion (.ok ())
        synthResult sendAudioResult).2.filter isSendTextAction ≠ []) :
    (handleIncomingMessage msg transcribeResult completion (.ok ())
        synthResult sendAudioResult).1 = .ok () := by
  unfold handleIncomingMessage at hsent ⊢
  by_cases hfrom : msg.From = []
  · simp [hfrom] at hsent
  · simp only [hfrom, if_neg, if_false] at hsent ⊢
    by_cases htype : msg.type = str "audio" ∨ msg.type = str "ptt"
    · simp only [htype, if_pos, if_true] at hsent ⊢
      cases haud : msg.audio with
      | none => simp [haud] at hsent
      | some url =>
        rw [haud] at hsent
        by_cases hurl : url = []
        · simp [hurl] at hsent
        · simp only [hurl, if_neg, if_false] at hsent ⊢
          cases ht : transcribeResult url with
          | error te => simp [ht, isSendTextAction] at hsent
          | ok t =>
            rw [ht] at hsent
            by_cases hin : trimSpace t = []
            · simp [hin, isSendTextAction] at hsent
            · simp only [hin, if_neg, if_false] at hsent ⊢
              cases hb : buildChatReply completion (trimSpace t) with
              | error be => simp [hb, isSendTextAction] at hsent
              | ok reply =>
                cases synthResult with
                | error se => simp
                | ok audio => cases sendAudioResult <;> simp
    · simp only [htype, if_neg, if_false] at hsent ⊢
      by_cases hin : trimSpace msg.body = []
      · simp [hin] at hsent
      · simp only [hin, if_neg, if_false] at hsent ⊢
        cases hb : buildChatReply completion (trimSpace msg.body) with
        | error be => simp [hb, isSendTextAction] at hsent
        | ok reply =>
          cases synthResult with
          | error se => simp
          | ok audio => cases sendAudioResult <;> simp

/-- Witness for C6: a plain text message, successful completion and text
send, failing synthesis. -/
theorem C6_witness :
    (handleIncomingMessage
        { From := str "5511", body := str "oi" }
        (fun _ => .error (str "n/a"))
        (fun _ _ => .ok ⟨[⟨str "ola"⟩]⟩)
        (.ok ()) (.error (str "tts down")) (.ok ())).2.filter isSendTextAction ≠ []
    ∧ (handleIncomingMessage
        { From := str "5511", body := str "oi" }
        (fun _ => .error (str "n/a"))
        (fun _ _ => .ok ⟨[⟨str "ola"⟩]⟩)
        (.ok ()) (.error (str "tts down")) (.ok ())).1 = .ok () :=
  ⟨by decide,
   C6_audio_best_effort { From := str "5511", body := str "oi" }
     (fun _ => .error (str "n/a")) (fun _ _ => .ok ⟨[⟨str "ola"⟩]⟩)
     (.error (str "tts down")) (.ok ()) (by decide)⟩

/-- C4 (amended): non-POST requests receive 405 and undecodable bodies
receive 400 in both handler revisions; in the store-less revision an
internal processing error yields 500 and success yields 200; the
store-backed revision, however, logs processing errors and answers 200
for every decoded POST. -/
theorem C4_status_codes_amended (method : Str) (bodyReadOk : Bool)
    (event : Str) (pr : Except Str Unit) (e : Str)
    (hm : method ≠ str "POST") :
    webhookHandlerStatus method bodyReadOk (some event) pr = 405
    ∧ webhookHandlerStatusNoStore method true pr = 405
    ∧ webhookHandlerStatus (str "POST") false (some event) pr = 400
    ∧ webhookHandlerStatus (str "POST") true none pr = 400
    ∧ webhookHandlerStatusNoStore (str "POST") false pr = 400
    ∧ webhookHandlerStatusNoStore (str "POST") true (.error e) = 500
    ∧ webhookHandlerStatusNoStore (str "POST") true (.ok ()) = 200
    ∧ webhookHandlerStatus (str "POST") true (some event) pr = 200 := by
  refine ⟨?_, ?_, rfl, rfl, rfl, rfl, rfl, ?_⟩
  · simp [webhookHandlerStatus, hm]
  · simp [webhookHandlerStatusNoStore, hm]
  · unfold webhookHandlerStatus
    cases pr <;> simp

/-- Witness for C4 at a GET request and a failing processing step. -/
theorem C4_witness :
    str "GET" ≠ str "POST"
    ∧ webhookHandlerStatus (str "GET") true (some (str "messages.upsert"))
        (.ok ()) = 405
    ∧ webhookHandlerStatusNoStore (str "POST") true (.error (str "boom")) = 500 := by
  refine ⟨by decide, ?_, ?_⟩
  · exact (C4_status_codes_amended (str "GET") true (str "messages.upsert")
      (.ok ()) (str "boom") (by decide)).1
  · exact (C4_status_codes_amended (str "GET") true (str "messages.upsert")
      (.ok ()) (str "boom") (by decide)).2.2.2.2.2.1

/-- C4 counterexample: a POST whose processing ends in an internal error
is answered 200, not 500, by the store-backed `WebhookHandler` — the
error is only logged. -/
theorem C4_counterexample :
    webhookHandlerStatus (str "POST") true (some (str "messages.upsert"))
        (.error (str "completion failed")) = 200
    ∧ webhookHandlerStatus (str "POST") true (some (str "messages.upsert"))
        (.error (str "completion failed")) ≠ 500 := by
  exact ⟨rfl, by decide⟩

lemma sendAudioLoop_cons (a : Except Str Unit) (l : List (Except Str Unit))
    (hl : l ≠ []) :
    sendAudioLoop (a :: l)
      = match a with
        | .ok _ => .ok ()
        | .error e => if ownedMediaErrCond e then sendAudioLoop l else .error e := by
  cases l with
  | nil => exact absurd rfl hl
  | cons b t => cases a <;> rfl

lemma sendAudioLoop_spec (pre rest : List (Except Str Unit))
    (r : Except Str Unit)
    (hpre : ∀ x ∈ pre, ∃ e, x = .error e ∧ ownedMediaErrCond e = true) :
    (r = .ok () → sendAudioLoop (pre ++ r :: rest) = .ok ())
    ∧ (∀ e, r = .error e → ownedMediaErrCond e = false →
        sendAudioLoop (pre ++ r :: rest) = .error e)
    ∧ (∀ e, r = .error e → rest = [] →
        sendAudioLoop (pre ++ r :: rest) = .error e) := by
  induction pre with
  | nil =>
    refine ⟨?_, ?_, ?_⟩
    · intro hr
      subst hr
      cases rest <;> rfl
    · intro e hr hcond
      subst hr
      cases rest with
      | nil => rfl
      | cons b t =>
        rw [List.nil_append, sendAudioLoop_cons _ _ (List.cons_ne_nil b t)]
        simp [hcond]
    · intro e hr hrest
      subst hr
      subst hrest
      rfl
  | cons x pre' ih =>
    obtain ⟨e, hx, he⟩ := hpre x (List.mem_cons_self x pre')
    have hpre' : ∀ y ∈ pre', ∃ e, y = .error e ∧ ownedMediaErrCond e = true :=
      fun y hy => hpre y (List.mem_cons_of_mem x hy)
    have ihs := ih hpre'
    have hne : pre' ++ r :: rest ≠ [] := by simp
    subst hx
    rw [List.cons_append, sendAudioLoop_cons _ _ hne]
    simp only [he, if_pos, if_true]
    exact ihs

/-- C9: `SendAudioMessage` tries the ordered shape list and returns
success at the first shape the gateway acknowledges; after a prefix of
owned-media failures, a failing attempt is returned as the final error
when the owned-media condition is absent or when it was the last shape. -/
theorem C9_audio_shape_retry (post : JsonVal → Except Str Unit)
    (recipient b64 : Str) (pre rest : List (Except Str Unit))
    (r : Except Str Unit)
    (hdecomp : (audioPayloads recipient b64).map post = pre ++ r :: rest)
    (hpre : ∀ x ∈ pre, ∃ e, x = .error e ∧ ownedMediaErrCond e = true) :
    (r = .ok () → SendAudioMessage post recipient b64 = .ok ())
    ∧ (∀ e, r = .error e → ownedMediaErrCond e = false →
        SendAudioMessage post recipient b64 = .error e)
    ∧ (∀ e, r = .error e → rest = [] →
        SendAudioMessage post recipient b64 = .error e) := by
  unfold SendAudioMessage
  rw [hdecomp]
  exact sendAudioLoop_spec pre rest r hpre

/-- Witness for C9: the second shape succeeds after a first owned-media
failure. -/
theorem C9_witness :
    ((audioPayloads (str "1") (str "x")).map
        (fun p => match p with
          | JsonVal.obj [_, _, (k, _)] =>
            if k = str "data"
            then Except.error (str "Owned media must be a URL or base64")
            else Except.ok ()
          | _ => Except.ok ())
      = [(Except.error (str "Owned media must be a URL or base64") : Except Str Unit)]
          ++ Except.ok () :: [Except.ok (), Except.ok (), Except.ok ()])
    ∧ (∀ x ∈ [(Except.error (str "Owned media must be a URL or base64") : Except Str Unit)],
        ∃ e, x = Except.error e ∧ ownedMediaErrCond e = true)
    ∧ SendAudioMessage
        (fun p => match p with
          | JsonVal.obj [_, _, (k, _)] =>
            if k = str "data"
            then Except.error (str "Owned media must be a URL or base64")
            else Except.ok ()
          | _ => Except.ok ())
        (str "1") (str "x") = .ok () := by
  refine ⟨rfl, ?_, ?_⟩
  · intro x hx
    simp only [List.mem_singleton] at hx
    exact ⟨str "Owned media must be a URL or base64", hx, by decide⟩
  · exact (C9_audio_shape_retry
      (fun p => match p with
        | JsonVal.obj [_, _, (k, _)] =>
          if k = str "data"
          then Except.error (str "Owned media must be a URL or base64")
          else Except.ok ()
        | _ => Except.ok ())
      (str "1") (str "x")
      [(Except.error (str "Owned media must be a URL or base64") : Except Str Unit)]
      [Except.ok (), Except.ok (), Except.ok ()] (Except.ok ())
      rfl
      (fun x hx => by
        simp only [List.mem_singleton] at hx
        exact ⟨str "Owned media must be a URL or base64", hx, by decide⟩)).1 rfl

end Hackathon

